import Mathlib

set_option maxHeartbeats 1000000

/-!
Shallow embedding of `src/app.py` of the math-riddle-generator repository
(a Streamlit app that generates/solves math riddles, repairs "math memes"
and solves emoji arithmetic with a causal language model).

Python strings are modelled as lists of unicode code points (`PyStr`);
Python `str.split`, `str.strip`, `str.replace`, the substring test `in`
and prefix tests are modelled by executable functions below.  The
language-model pipeline is modelled as a function from the prompt to
`Except Unit PyStr` (an exception, or the generated text); the batch
loops take one such behaviour (plus the random draws of the iteration)
per iteration, so that different iterations may behave differently.
-/

abbrev PyStr := List Char

/-- Python whitespace test used by `str.strip` (ASCII range). -/
def isSpace (c : Char) : Bool :=
  c == ' ' || c == '\t' || c == '\n' || c == '\r' || c == '\x0b' || c == '\x0c'

/-- Python `s.strip()`: drop leading and trailing whitespace. -/
def pyStrip (s : PyStr) : PyStr :=
  ((s.dropWhile isSpace).reverse.dropWhile isSpace).reverse

/-- Prefix test on code-point lists (Python `s.startswith(p)`). -/
def isPre : PyStr → PyStr → Bool
  | [], _ => true
  | _ :: _, [] => false
  | a :: p, b :: s => a == b && isPre p s

/-- Python substring test `pat in s`. -/
def strIn (pat : PyStr) : PyStr → Bool
  | [] => pat.isEmpty
  | c :: t => isPre pat (c :: t) || strIn pat t

/-- Worker for `pySplit`, structurally recursive on a fuel argument so
that it evaluates inside the kernel; the fuel is always instantiated
with the length of the scanned string, which suffices because every
recursive call scans a strictly shorter string. -/
def pySplitF (pat : PyStr) : Nat → PyStr → List PyStr
  | _, [] => [[]]
  | 0, s => [s]
  | fuel + 1, c :: t =>
    if !pat.isEmpty && isPre pat (c :: t) then
      [] :: pySplitF pat fuel (t.drop (pat.length - 1))
    else
      match pySplitF pat fuel t with
      | [] => [[c]]
      | h :: r => (c :: h) :: r

/-- Python `s.split(pat)` for a separator: non-overlapping matches,
scanned left to right; `[s]` when the separator never occurs. -/
def pySplit (pat s : PyStr) : List PyStr := pySplitF pat s.length s

/-- Worker for `countOcc`, fuelled like `pySplitF`. -/
def countOccF (pat : PyStr) : Nat → PyStr → Nat
  | _, [] => 0
  | 0, _ => 0
  | fuel + 1, c :: t =>
    if !pat.isEmpty && isPre pat (c :: t) then
      countOccF pat fuel (t.drop (pat.length - 1)) + 1
    else
      countOccF pat fuel t

/-- Number of non-overlapping occurrences of `pat` in `s`
(Python `s.count(pat)` for a non-empty `pat`). -/
def countOcc (pat s : PyStr) : Nat := countOccF pat s.length s

/-- Everything strictly before the first occurrence of `pat` in `s`
(the whole of `s` when `pat` does not occur). -/
def beforeFirst (pat : PyStr) : PyStr → PyStr
  | [] => []
  | c :: t =>
    if !pat.isEmpty && isPre pat (c :: t) then []
    else c :: beforeFirst pat t

/-- Everything strictly after the first occurrence of `pat` in `s`
(empty when `pat` does not occur). -/
def afterFirst (pat : PyStr) : PyStr → PyStr
  | [] => []
  | c :: t =>
    if !pat.isEmpty && isPre pat (c :: t) then t.drop (pat.length - 1)
    else afterFirst pat t

/-- Python `s.replace(pat, repl)`: replace all non-overlapping
occurrences, left to right. -/
def pyReplace (pat repl s : PyStr) : PyStr :=
  List.intercalate repl (pySplit pat s)

/-! ### Fixed markers of `app.py` -/

def solM : PyStr := "Solution:".data
def correctM : PyStr := "Correct:".data
def nlCorrectM : PyStr := "\nCorrect:".data
def arrowM : PyStr := "→".data
def eqM : PyStr := "=".data
def nlM : PyStr := "\n".data

/-- One observed behaviour of the text-generation pipeline: a function
from the prompt to either an exception (`error`) or the generated text,
which per the transformers contract echoes the prompt followed by the
continuation.  Sampling options (`max_length`, `temperature`, `top_k`,
`top_p`, `truncation`) do not affect the string post-processing that
this development verifies and are not modelled. -/
def Gen : Type := PyStr → Except Unit PyStr

/-! ### `load_model` (app.py lines 33-49)

The `transformers`/IO part of loading is outside the repository; its
outcome is passed in as an `Except`.  The function returns the loaded
generator, or `None` (here `none`) when loading raised. -/

def load_model (attempt : Except Unit Gen) : Option Gen :=
  match attempt with
  | .ok generator => some generator
  | .error _ => none

/-! ### `generate_meme_examples` (app.py lines 70-102)

The random draws of an iteration (`expr`, `wrong_answer` rendered as a
decimal string) and the generator behaviour for that iteration are
packaged per iteration; `num_examples` is the length of the list. -/

structure MemeIter where
  expr : PyStr
  wrong : PyStr
  gen : Gen

/-- The prompt of one meme-example iteration (app.py line 82). -/
def meme_prompt (expr wrong : PyStr) : PyStr :=
  "Incorrect: ".data ++ expr ++ " = ".data ++ wrong ++ "\nCorrect:".data

/-- The body of one iteration of the `generate_meme_examples` loop
(app.py lines 76-100): `none` both when the generator raises (the
per-iteration `except` swallows it) and when the `"\nCorrect:"` check
fails (nothing is appended). -/
def meme_example_step (it : MemeIter) : Option (PyStr × PyStr) :=
  let prompt := meme_prompt it.expr it.wrong
  match it.gen prompt with
  | .error _ => none
  | .ok generated_text =>
    if strIn nlCorrectM generated_text then
      let before := pyStrip ((pySplit nlM (pyReplace "Incorrect: ".data [] prompt)).getD 0 [])
      let after := pyStrip ((pySplit nlCorrectM generated_text).getD 1 [])
      some (before, after)
    else none

/-- `generate_meme_examples`: the loop appends the successful
iterations in order; `return examples if examples else None`. -/
def generate_meme_examples (iters : List MemeIter) : Option (List (PyStr × PyStr)) :=
  let examples := iters.filterMap meme_example_step
  if examples.isEmpty then none else some examples

/-! ### `repair_meme` (app.py lines 104-135) -/

/-- Lines 106-107: append `" = ?"` when the input has no `"="`. -/
def repair_meme_input (meme_text : PyStr) : PyStr :=
  if strIn eqM meme_text then meme_text else meme_text ++ " = ?".data

/-- Lines 109-112: the instructional template around the (possibly
`" = ?"`-extended) statement. -/
def repair_meme_prompt (meme_text : PyStr) : PyStr :=
  "Fix this incorrect math statement and explain the error:\n\nIncorrect: ".data
    ++ meme_text ++ "\nCorrect:".data

/-- Lines 126-128: take the part after `"Correct:"` (index 1 of the
split) when the marker occurs, else the raw response; strip; keep the
first line; strip. -/
def repair_meme_extract (full_response : PyStr) : PyStr :=
  let correction :=
    if strIn correctM full_response then
      pyStrip ((pySplit correctM full_response).getD 1 [])
    else full_response
  pyStrip ((pySplit nlM correction).getD 0 [])

/-- `repair_meme`: `none` when the generator raises (caught by the
`except`); otherwise the extracted correction, with `"<lhs> = "`
prefixed when the correction has no `"="` (lines 129-130, where the
left-hand side comes from the `" = ?"`-extended input). -/
def repair_meme (generator : Gen) (meme_text0 : PyStr) : Option PyStr :=
  let meme_text := repair_meme_input meme_text0
  match generator (repair_meme_prompt meme_text) with
  | .error _ => none
  | .ok full_response =>
    let correction := repair_meme_extract full_response
    some (if strIn eqM correction then correction
          else pyStrip ((pySplit eqM meme_text).getD 0 []) ++ " = ".data ++ correction)

/-! ### `generate_riddle_solution` (app.py lines 137-155) -/

/-- Line 139: the riddle-solving prompt. -/
def riddle_prompt (riddle : PyStr) : PyStr :=
  "Riddle: ".data ++ riddle ++ "\nSolution:".data

/-- `generate_riddle_solution`: `none` when the generator raises;
otherwise the part after `"Solution:"` (index 1 of the split) stripped
when the marker occurs, else the raw text — in both cases truncated to
the first line and stripped (lines 150-152). -/
def generate_riddle_solution (generator : Gen) (riddle : PyStr) : Option PyStr :=
  match generator (riddle_prompt riddle) with
  | .error _ => none
  | .ok generated_text =>
    let solution :=
      if strIn solM generated_text then
        pyStrip ((pySplit solM generated_text).getD 1 [])
      else generated_text
    some (pyStrip ((pySplit nlM solution).getD 0 []))

/-! ### `generate_riddles` (app.py lines 157-180)

The generator is called once per iteration with the fixed prompt
`"Riddle:"`; the sampled outputs of the successive calls are the input
list.  The `try` wraps the whole loop, so the model of the loop aborts
with `none` at the first raising call. -/

/-- Lines 170-175: the record appended for one generated text. -/
def riddles_item (generated_text : PyStr) : PyStr × PyStr :=
  if strIn solM generated_text then
    (pyStrip ((pySplit solM generated_text).getD 0 []),
     (pySplit nlM (pyStrip ((pySplit solM generated_text).getD 1 []))).getD 0 [])
  else (generated_text, "Could not generate solution".data)

/-- The loop of `generate_riddles`, with the accumulated list. -/
def riddles_go : List (Except Unit PyStr) → List (PyStr × PyStr) →
    Option (List (PyStr × PyStr))
  | [], acc => some acc.reverse
  | .error _ :: _, _ => none
  | .ok t :: rest, acc => riddles_go rest (riddles_item t :: acc)

/-- `generate_riddles`: returns the accumulated list (no emptiness
check in the source), or `None` when any call raised. -/
def generate_riddles (outs : List (Except Unit PyStr)) : Option (List (PyStr × PyStr)) :=
  riddles_go outs []

/-! ### `solve_emoji_math` (app.py lines 182-201) -/

/-- Lines 184-185: append `" →"` when the input has no `"→"`. -/
def solve_emoji_input (problem : PyStr) : PyStr :=
  if strIn arrowM problem then problem else problem ++ " →".data

/-- `solve_emoji_math`: `none` when the generator raises; otherwise the
part after `"→"` (index 1 of the split) stripped when the marker
occurs, else the raw text unmodified (lines 197-198; note: no
first-line truncation in this variant). -/
def solve_emoji_math (generator : Gen) (problem0 : PyStr) : Option PyStr :=
  let problem := solve_emoji_input problem0
  match generator problem with
  | .error _ => none
  | .ok solution =>
    some (if strIn arrowM solution then pyStrip ((pySplit arrowM solution).getD 1 [])
          else solution)

/-! ### `generate_emoji_riddles` (app.py lines 203-234)

As for the memes, the randomly composed `problem` of an iteration and
the generator behaviour are packaged per iteration; the `try` wraps the
whole loop. -/

structure EmojiIter where
  problem : PyStr
  gen : Gen

/-- The loop of `generate_emoji_riddles` (lines 208-229): abort with
`none` at the first raising call; skip iterations whose output lacks
`"→"`. -/
def emoji_go : List EmojiIter → List (PyStr × PyStr) → Option (List (PyStr × PyStr))
  | [], acc => some acc.reverse
  | it :: rest, acc =>
    match it.gen (it.problem ++ " →".data) with
    | .error _ => none
    | .ok solution =>
      if strIn arrowM solution then
        emoji_go rest ((it.problem, pyStrip ((pySplit arrowM solution).getD 1 [])) :: acc)
      else
        emoji_go rest acc

/-- `generate_emoji_riddles`: `riddles if riddles else None` after the
loop, `None` when a call raised. -/
def generate_emoji_riddles (iters : List EmojiIter) : Option (List (PyStr × PyStr)) :=
  match emoji_go iters [] with
  | none => none
  | some riddles => if riddles.isEmpty then none else some riddles

/-! ### The button handlers of `main` (app.py lines 236-415)

Each Streamlit button press runs one of the following blocking chains.
The rendered result is abstracted into an outcome: the blank-input
warning, the "Model failed to load" error shown when the cached
generator is the `None` sentinel, the displayed payload, or the
"Failed to ..." notice shown when the pipeline returned a falsy value
(`None` or an empty string/list). -/

inductive UIOutcome where
  | warnEmpty : UIOutcome
  | modelLoadError : UIOutcome
  | showSolution : PyStr → UIOutcome
  | showRiddles : List (PyStr × PyStr) → UIOutcome
  | showExamples : List (PyStr × PyStr) → UIOutcome
  | showCorrection : PyStr → UIOutcome
  | showEmojiSolution : PyStr → UIOutcome
  | showEmojiRiddles : List (PyStr × PyStr) → UIOutcome
  | failNotice : UIOutcome
deriving DecidableEq

/-- "Solve Riddle" button (lines 259-273). -/
def solve_riddle_handler (riddle_generator : Option Gen) (user_riddle : PyStr) : UIOutcome :=
  if pyStrip user_riddle = [] then .warnEmpty
  else
    match riddle_generator with
    | none => .modelLoadError
    | some g =>
      match generate_riddle_solution g user_riddle with
      | some s => if s = [] then .failNotice else .showSolution s
      | none => .failNotice

/-- "Generate Riddles" button (lines 283-297); the per-call sampled
outputs stand in for the generator as in `generate_riddles`. -/
def generate_riddles_handler (riddle_generator : Option Gen)
    (outs : List (Except Unit PyStr)) : UIOutcome :=
  match riddle_generator with
  | none => .modelLoadError
  | some _ =>
    match generate_riddles outs with
    | some l => if l = [] then .failNotice else .showRiddles l
    | none => .failNotice

/-- "Generate Examples" button (lines 316-334). -/
def generate_examples_handler (meme_generator : Option Gen)
    (iters : List MemeIter) : UIOutcome :=
  match meme_generator with
  | none => .modelLoadError
  | some _ =>
    match generate_meme_examples iters with
    | some l => if l = [] then .failNotice else .showExamples l
    | none => .failNotice

/-- "Repair This Meme" button (lines 343-357). -/
def repair_meme_handler (meme_generator : Option Gen) (meme_text : PyStr) : UIOutcome :=
  if pyStrip meme_text = [] then .warnEmpty
  else
    match meme_generator with
    | none => .modelLoadError
    | some g =>
      match repair_meme g meme_text with
      | some c => if c = [] then .failNotice else .showCorrection c
      | none => .failNotice

/-- "Solve Emoji Math" button (lines 377-391). -/
def solve_emoji_handler (emoji_generator : Option Gen) (user_problem : PyStr) : UIOutcome :=
  if pyStrip user_problem = [] then .warnEmpty
  else
    match emoji_generator with
    | none => .modelLoadError
    | some g =>
      match solve_emoji_math g user_problem with
      | some s => if s = [] then .failNotice else .showEmojiSolution s
      | none => .failNotice

/-- "Generate Emoji Problems" button (lines 401-415). -/
def emoji_riddles_handler (emoji_generator : Option Gen)
    (iters : List EmojiIter) : UIOutcome :=
  match emoji_generator with
  | none => .modelLoadError
  | some _ =>
    match generate_emoji_riddles iters with
    | some l => if l = [] then .failNotice else .showEmojiRiddles l
    | none => .failNotice

/-! ### Spec-side definitions

These follow the wording of the specification, for comparison with the
code-side definitions above. -/

/-- Spec wording of the Response Extractor post-processing: "Trim
leading/trailing whitespace, then truncate to the first line (split on
newline, take index 0)" with the final result read as "the trimmed
first line". -/
def specTrimmedFirstLine (s : PyStr) : PyStr :=
  pyStrip ((pySplit nlM (pyStrip s)).getD 0 [])

/-! ### Concrete generator behaviours used in counterexamples and
witnesses -/

/-- Echoes the prompt and continues with `" 8\nextra"`. -/
def genArrowCont : Gen := fun p => .ok (p ++ " 8\nextra".data)

/-- Echoes the prompt and continues with `" 42"`. -/
def genSol42 : Gen := fun p => .ok (p ++ " 42".data)

/-- Ignores the prompt; output has the marker `"Solution:"` twice on
one line. -/
def genDoubleSol : Gen := fun _ => .ok "Solution: a Solution: b".data

/-- Ignores the prompt; output lacks every marker and spans two
lines. -/
def genNoMarker : Gen := fun _ => .ok "abc \nxyz".data

/-- Ignores the prompt; output continues after `"Correct:"` with a
digit. -/
def genCorrect5 : Gen := fun _ => .ok "Correct: 5\nrest".data

/-- Echoes the prompt and continues with `" 7"`. -/
def genEcho7 : Gen := fun p => .ok (p ++ " 7".data)

/-- Always raises. -/
def genRaise : Gen := fun _ => .error ()

/-! ### Lemmas about the string primitives -/

theorem isEmpty_false_of_ne {pat : PyStr} (h : pat ≠ []) : pat.isEmpty = false := by
  cases pat with
  | nil => exact absurd rfl h
  | cons a l => rfl

theorem pySplitF_fuel (pat : PyStr) :
    ∀ fuel fuel' s, s.length ≤ fuel → s.length ≤ fuel' →
      pySplitF pat fuel s = pySplitF pat fuel' s := by
  intro fuel
  induction fuel with
  | zero =>
    intro fuel' s hs _
    have hnil : s = [] := List.eq_nil_of_length_eq_zero (Nat.le_zero.mp hs)
    subst hnil
    cases fuel' <;> rfl
  | succ f ih =>
    intro fuel' s hs hs'
    cases s with
    | nil => cases fuel' <;> rfl
    | cons c t =>
      cases fuel' with
      | zero => simp only [List.length_cons] at hs'; omega
      | succ f' =>
        simp only [pySplitF]
        simp only [List.length_cons] at hs hs'
        have h1 : (t.drop (pat.length - 1)).length ≤ f := by
          simp only [List.length_drop]; omega
        have h1' : (t.drop (pat.length - 1)).length ≤ f' := by
          simp only [List.length_drop]; omega
        rw [ih _ _ h1 h1', ih f' t (by omega) (by omega)]

theorem pySplit_cons (pat : PyStr) (c : Char) (t : PyStr) :
    pySplit pat (c :: t) =
      if !pat.isEmpty && isPre pat (c :: t) then
        [] :: pySplit pat (t.drop (pat.length - 1))
      else
        match pySplit pat t with
        | [] => [[c]]
        | h :: r => (c :: h) :: r := by
  show pySplitF pat (c :: t).length (c :: t) = _
  simp only [List.length_cons, pySplitF]
  rw [pySplitF_fuel pat t.length (t.drop (pat.length - 1)).length (t.drop (pat.length - 1))
        (by simp only [List.length_drop]; omega) le_rfl]
  rfl

theorem countOccF_fuel (pat : PyStr) :
    ∀ fuel fuel' s, s.length ≤ fuel → s.length ≤ fuel' →
      countOccF pat fuel s = countOccF pat fuel' s := by
  intro fuel
  induction fuel with
  | zero =>
    intro fuel' s hs _
    have hnil : s = [] := List.eq_nil_of_length_eq_zero (Nat.le_zero.mp hs)
    subst hnil
    cases fuel' <;> rfl
  | succ f ih =>
    intro fuel' s hs hs'
    cases s with
    | nil => cases fuel' <;> rfl
    | cons c t =>
      cases fuel' with
      | zero => simp only [List.length_cons] at hs'; omega
      | succ f' =>
        simp only [countOccF]
        simp only [List.length_cons] at hs hs'
        have h1 : (t.drop (pat.length - 1)).length ≤ f := by
          simp only [List.length_drop]; omega
        have h1' : (t.drop (pat.length - 1)).length ≤ f' := by
          simp only [List.length_drop]; omega
        rw [ih _ _ h1 h1', ih f' t (by omega) (by omega)]

theorem countOcc_cons (pat : PyStr) (c : Char) (t : PyStr) :
    countOcc pat (c :: t) =
      if !pat.isEmpty && isPre pat (c :: t) then
        countOcc pat (t.drop (pat.length - 1)) + 1
      else
        countOcc pat t := by
  show countOccF pat (c :: t).length (c :: t) = _
  simp only [List.length_cons, countOccF]
  rw [countOccF_fuel pat t.length (t.drop (pat.length - 1)).length (t.drop (pat.length - 1))
        (by simp only [List.length_drop]; omega) le_rfl]
  rfl

theorem strIn_nilpat : ∀ s : PyStr, strIn [] s = true
  | [] => rfl
  | _ :: _ => by simp [strIn, isPre]

theorem isPre_append {p : PyStr} (r : PyStr) :
    ∀ {s : PyStr}, isPre p s = true → isPre p (s ++ r) = true := by
  induction p with
  | nil => intro s _; rfl
  | cons a p ih =>
    intro s h
    cases s with
    | nil => simp [isPre] at h
    | cons b t =>
      simp only [isPre, Bool.and_eq_true] at h
      simp only [List.cons_append, isPre, Bool.and_eq_true]
      exact ⟨h.1, ih h.2⟩

theorem isPre_iff_exists {p s : PyStr} : isPre p s = true ↔ ∃ r, s = p ++ r := by
  constructor
  · intro h
    induction p generalizing s with
    | nil => exact ⟨s, rfl⟩
    | cons a p ih =>
      cases s with
      | nil => simp [isPre] at h
      | cons b t =>
        simp only [isPre, Bool.and_eq_true, beq_iff_eq] at h
        obtain ⟨r, hr⟩ := ih h.2
        exact ⟨r, by simp [h.1, hr]⟩
  · rintro ⟨r, rfl⟩
    induction p with
    | nil => rfl
    | cons a p ih => simp [isPre, List.cons_append, ih]

theorem strIn_append_left {pat : PyStr} (t : PyStr) :
    ∀ s, strIn pat s = true → strIn pat (s ++ t) = true := by
  intro s
  induction s with
  | nil =>
    intro h
    have hpat : pat = [] := by
      cases pat with
      | nil => rfl
      | cons a l => simp [strIn, List.isEmpty] at h
    subst hpat
    exact strIn_nilpat t
  | cons c s ih =>
    intro h
    simp only [strIn, Bool.or_eq_true] at h
    rcases h with h | h
    · have hp := isPre_append t h
      simp only [List.cons_append] at hp
      simp [List.cons_append, strIn, hp]
    · simp [List.cons_append, strIn, ih h]

theorem strIn_append_right {pat : PyStr} (t : PyStr) :
    ∀ s, strIn pat t = true → strIn pat (s ++ t) = true := by
  intro s h
  induction s with
  | nil => simpa using h
  | cons c s ih => simp [List.cons_append, strIn, ih]

theorem strIn_of_isPre {a g pat : PyStr} (hpre : isPre a g = true)
    (h : strIn pat a = true) : strIn pat g = true := by
  obtain ⟨r, rfl⟩ := isPre_iff_exists.mp hpre
  exact strIn_append_left r a h

theorem beforeFirst_of_not_strIn {pat : PyStr} :
    ∀ {s}, strIn pat s = false → beforeFirst pat s = s := by
  intro s
  induction s with
  | nil => intro _; rfl
  | cons c t ih =>
    intro h
    simp only [strIn, Bool.or_eq_false_iff] at h
    simp [beforeFirst, h.1, ih h.2]

theorem pySplit_of_not_strIn {pat : PyStr} :
    ∀ {s}, strIn pat s = false → pySplit pat s = [s] := by
  intro s
  induction s with
  | nil => intro _; rfl
  | cons c t ih =>
    intro h
    simp only [strIn, Bool.or_eq_false_iff] at h
    rw [pySplit_cons, ih h.2]
    simp [h.1]

theorem pySplit_of_strIn {pat : PyStr} (hp : pat ≠ []) :
    ∀ {s}, strIn pat s = true →
      pySplit pat s = beforeFirst pat s :: pySplit pat (afterFirst pat s) := by
  have hnp : pat.isEmpty = false := isEmpty_false_of_ne hp
  intro s
  induction s with
  | nil => intro h; rw [show strIn pat [] = false by simp [strIn, hnp]] at h; cases h
  | cons c t ih =>
    intro h
    rw [pySplit_cons]
    cases hpre : isPre pat (c :: t) with
    | true => simp [beforeFirst, afterFirst, hnp, hpre]
    | false =>
      have ht : strIn pat t = true := by simpa [strIn, hpre] using h
      rw [ih ht]
      simp [beforeFirst, afterFirst, hnp, hpre]

theorem countOcc_eq_zero_iff {pat : PyStr} (hp : pat ≠ []) :
    ∀ s, countOcc pat s = 0 ↔ strIn pat s = false := by
  have hnp : pat.isEmpty = false := isEmpty_false_of_ne hp
  intro s
  induction s with
  | nil => simp [countOcc, countOccF, strIn, hnp]
  | cons c t ih =>
    rw [countOcc_cons]
    cases hpre : isPre pat (c :: t) with
    | true => simp [strIn, hnp, hpre]
    | false => simp [strIn, hnp, hpre, ih]

theorem countOcc_succ_of_strIn {pat : PyStr} (hp : pat ≠ []) :
    ∀ s, strIn pat s = true →
      countOcc pat s = countOcc pat (afterFirst pat s) + 1 := by
  have hnp : pat.isEmpty = false := isEmpty_false_of_ne hp
  intro s
  induction s with
  | nil => intro h; simp [strIn, hnp] at h
  | cons c t ih =>
    intro h
    rw [countOcc_cons]
    cases hpre : isPre pat (c :: t) with
    | true => simp [afterFirst, hnp, hpre]
    | false =>
      have ht : strIn pat t = true := by simpa [strIn, hpre] using h
      simp [afterFirst, hnp, hpre, ih ht]

theorem strIn_of_countOcc_one {pat : PyStr} (hp : pat ≠ []) {s : PyStr}
    (h1 : countOcc pat s = 1) : strIn pat s = true := by
  cases h : strIn pat s with
  | false =>
    have h0 := (countOcc_eq_zero_iff hp s).mpr h
    omega
  | true => rfl

theorem getD0_pySplit {pat : PyStr} (hp : pat ≠ []) (s : PyStr) :
    (pySplit pat s).getD 0 [] = beforeFirst pat s := by
  cases h : strIn pat s with
  | false => rw [pySplit_of_not_strIn h, beforeFirst_of_not_strIn h]; rfl
  | true => rw [pySplit_of_strIn hp h]; rfl

theorem getD1_pySplit_between {pat : PyStr} (hp : pat ≠ []) (s : PyStr)
    (h : strIn pat s = true) :
    (pySplit pat s).getD 1 [] = beforeFirst pat (afterFirst pat s) := by
  rw [pySplit_of_strIn hp h]
  show (pySplit pat (afterFirst pat s)).getD 0 [] = _
  exact getD0_pySplit hp _

theorem getD1_pySplit_once {pat : PyStr} (hp : pat ≠ []) {s : PyStr}
    (h1 : countOcc pat s = 1) :
    (pySplit pat s).getD 1 [] = afterFirst pat s := by
  have hin : strIn pat s = true := strIn_of_countOcc_one hp h1
  have hafter : countOcc pat (afterFirst pat s) = 0 := by
    have := countOcc_succ_of_strIn hp s hin
    omega
  have hafterIn : strIn pat (afterFirst pat s) = false :=
    (countOcc_eq_zero_iff hp _).mp hafter
  rw [getD1_pySplit_between hp s hin, beforeFirst_of_not_strIn hafterIn]

theorem strIn_of_countOcc_pos {pat : PyStr} (hp : pat ≠ []) {s : PyStr}
    (h : 0 < countOcc pat s) : strIn pat s = true := by
  cases hh : strIn pat s with
  | false =>
    have h0 := (countOcc_eq_zero_iff hp s).mpr hh
    omega
  | true => rfl

/-! ### The claims -/

/-- Claim C5: in meme repair, if and only if the input string lacks an
`"="` character, the Prompt Builder appends `" = ?"` to it before
templating; an input already containing `"="` is passed through
unchanged, so this step never duplicates the `"="` marker. -/
theorem c5_append_iff (meme_text : PyStr) :
    (strIn eqM meme_text = false →
      repair_meme_input meme_text = meme_text ++ " = ?".data) ∧
    (strIn eqM meme_text = true → repair_meme_input meme_text = meme_text) := by
  constructor <;> intro h <;> simp [repair_meme_input, h]

/-- Witness for C5 at the inputs `"2 + 2"` (no `"="`) and
`"2 + 2 = 5"` (already has `"="`). -/
theorem c5_witness :
    repair_meme_input "2 + 2".data = "2 + 2".data ++ " = ?".data ∧
    repair_meme_input "2 + 2 = 5".data = "2 + 2 = 5".data :=
  ⟨(c5_append_iff "2 + 2".data).1 (by decide),
   (c5_append_iff "2 + 2 = 5".data).2 (by decide)⟩

/-- Claim C6: in emoji-math solving, if the user input lacks a `"→"`
character the Prompt Builder appends `" →"` before calling generation;
input already containing `"→"` is passed unchanged. -/
theorem c6_append_iff (problem : PyStr) :
    (strIn arrowM problem = false →
      solve_emoji_input problem = problem ++ " →".data) ∧
    (strIn arrowM problem = true → solve_emoji_input problem = problem) := by
  constructor <;> intro h <;> simp [solve_emoji_input, h]

/-- Witness for C6 at the spec scenario input `"🍎 + 🍎 = 4"` (no
`"→"`) and at `"1 + 1 = 2 →"` (already has `"→"`). -/
theorem c6_witness :
    solve_emoji_input "🍎 + 🍎 = 4".data = "🍎 + 🍎 = 4".data ++ " →".data ∧
    solve_emoji_input "1 + 1 = 2 →".data = "1 + 1 = 2 →".data :=
  ⟨(c6_append_iff "🍎 + 🍎 = 4".data).1 (by decide),
   (c6_append_iff "1 + 1 = 2 →".data).2 (by decide)⟩

/-- Claim C7: in meme repair, after the first-line correction is
extracted, a correction lacking `"="` is completed to
`"<lhs> = <correction>"` where `<lhs>` is the trimmed part of the
(possibly `" = ?"`-extended) statement before its first `"="`, and a
correction already containing `"="` is returned as-is. -/
theorem c7_synthesis (generator : Gen) (meme_text full_response : PyStr)
    (hgen : generator (repair_meme_prompt (repair_meme_input meme_text)) =
      .ok full_response) :
    repair_meme generator meme_text =
      some (if strIn eqM (repair_meme_extract full_response) = true
            then repair_meme_extract full_response
            else pyStrip (beforeFirst eqM (repair_meme_input meme_text)) ++ " = ".data
                 ++ repair_meme_extract full_response) := by
  simp only [repair_meme, hgen]
  rw [getD0_pySplit (show eqM ≠ [] by decide) (repair_meme_input meme_text)]

/-- Witness for C7: the model answers `"Correct: 5\nrest"` on the input
`"2+2=5"`. -/
theorem c7_witness :
    repair_meme genCorrect5 "2+2=5".data =
      some (if strIn eqM (repair_meme_extract "Correct: 5\nrest".data) = true
            then repair_meme_extract "Correct: 5\nrest".data
            else pyStrip (beforeFirst eqM (repair_meme_input "2+2=5".data)) ++ " = ".data
                 ++ repair_meme_extract "Correct: 5\nrest".data) :=
  c7_synthesis genCorrect5 "2+2=5".data "Correct: 5\nrest".data rfl

/-- Claim C9 (implicit invariant): whenever `repair_meme` returns a
correction (a non-`None` result), that correction contains at least one
`"="` character. -/
theorem c9_invariant (generator : Gen) (meme_text correction : PyStr)
    (h : repair_meme generator meme_text = some correction) :
    strIn eqM correction = true := by
  simp only [repair_meme] at h
  cases hg : generator (repair_meme_prompt (repair_meme_input meme_text)) with
  | error e => rw [hg] at h; cases h
  | ok full_response =>
    rw [hg] at h
    simp only [Option.some.injEq] at h
    subst h
    cases hx : strIn eqM (repair_meme_extract full_response) with
    | true => simp [hx]
    | false =>
      simp only [hx, Bool.false_eq_true, if_false]
      have h1 : strIn eqM
          (pyStrip ((pySplit eqM (repair_meme_input meme_text)).getD 0 []) ++ " = ".data) =
          true :=
        strIn_append_right " = ".data _ (by decide)
      exact strIn_append_left (repair_meme_extract full_response) _ h1

/-- Witness for C9: with the model answering `"Correct: 5\nrest"` on
`"2+2=5"`, the returned correction `"2+2 = 5"` contains `"="`. -/
theorem c9_witness : strIn eqM "2+2 = 5".data = true :=
  c9_invariant genCorrect5 "2+2=5".data "2+2 = 5".data (by decide)

/-- Counterexample to claim C1 as stated: with the prompt
`"1 + 1 = 2 →"` (after the `" →"` append) and the continuation
`" 8\nextra"`, the marker `"→"` occurs exactly once in the generated
text, yet `solve_emoji_math` returns `"8\nextra"`, which is not the
trimmed first line `"8"` of the continuation. -/
theorem c1_counterexample :
    countOcc arrowM ("1 + 1 = 2 →".data ++ " 8\nextra".data) = 1 ∧
    solve_emoji_math genArrowCont "1 + 1 = 2".data = some "8\nextra".data ∧
    "8\nextra".data ≠ specTrimmedFirstLine " 8\nextra".data := by decide

/-- Claim C1 as amended: when the marker occurs exactly once in the
generated text, `generate_riddle_solution` returns the trimmed first
line of the continuation after the marker, but `solve_emoji_math`
returns the whole trimmed continuation without first-line
truncation. -/
theorem c1_amended :
    (∀ (generator : Gen) (riddle generated_text : PyStr),
        generator (riddle_prompt riddle) = .ok generated_text →
        countOcc solM generated_text = 1 →
        generate_riddle_solution generator riddle =
          some (specTrimmedFirstLine (afterFirst solM generated_text))) ∧
    (∀ (generator : Gen) (problem generated_text : PyStr),
        generator (solve_emoji_input problem) = .ok generated_text →
        countOcc arrowM generated_text = 1 →
        solve_emoji_math generator problem =
          some (pyStrip (afterFirst arrowM generated_text))) := by
  constructor
  · intro generator riddle G hgen h1
    have hin : strIn solM G = true := strIn_of_countOcc_one (by decide) h1
    simp only [generate_riddle_solution, hgen, hin, if_true]
    rw [getD1_pySplit_once (by decide) h1]
    rfl
  · intro generator problem G hgen h1
    have hin : strIn arrowM G = true := strIn_of_countOcc_one (by decide) h1
    simp only [solve_emoji_math, hgen, hin, if_true]
    rw [getD1_pySplit_once (by decide) h1]

/-- Witness for the amended C1: the model echoes the riddle prompt and
continues with `" 42"`. -/
theorem c1_witness :
    generate_riddle_solution genSol42 "r".data =
      some (specTrimmedFirstLine (afterFirst solM (riddle_prompt "r".data ++ " 42".data))) :=
  c1_amended.1 genSol42 "r".data (riddle_prompt "r".data ++ " 42".data) rfl (by decide)

/-- Counterexample to claim C2 as stated: on the generated text
`"Solution: a Solution: b"`, where the marker occurs twice,
`generate_riddle_solution` returns `"a"`, not the processed form of
everything after the first occurrence (which would be
`"a Solution: b"`): the second occurrence and the text after it are
stripped away. -/
theorem c2_counterexample :
    generate_riddle_solution genDoubleSol "r".data = some "a".data ∧
    "a".data ≠
      pyStrip ((pySplit nlM (pyStrip
        (afterFirst solM "Solution: a Solution: b".data))).getD 0 []) := by decide

/-- Claim C2 as amended: when the marker occurs at least twice, the
split indexes the segment between the first and the second occurrence,
so the retained continuation is the text after the first occurrence
only up to (and excluding) the next occurrence of the marker. -/
theorem c2_amended :
    (∀ (generator : Gen) (riddle generated_text : PyStr),
        generator (riddle_prompt riddle) = .ok generated_text →
        2 ≤ countOcc solM generated_text →
        generate_riddle_solution generator riddle =
          some (pyStrip ((pySplit nlM (pyStrip
            (beforeFirst solM (afterFirst solM generated_text)))).getD 0 []))) ∧
    (∀ full_response, 2 ≤ countOcc correctM full_response →
        repair_meme_extract full_response =
          pyStrip ((pySplit nlM (pyStrip
            (beforeFirst correctM (afterFirst correctM full_response)))).getD 0 [])) := by
  constructor
  · intro generator riddle G hgen h2
    have hin : strIn solM G = true := strIn_of_countOcc_pos (by decide) (by omega)
    simp only [generate_riddle_solution, hgen, hin, if_true]
    rw [getD1_pySplit_between (by decide) G hin]
  · intro full_response h2
    have hin : strIn correctM full_response = true :=
      strIn_of_countOcc_pos (by decide) (by omega)
    simp only [repair_meme_extract, hin, if_true]
    rw [getD1_pySplit_between (by decide) full_response hin]

/-- Witness for the amended C2 on a response with two `"Correct:"`
markers. -/
theorem c2_witness :
    repair_meme_extract "Correct: 1 Correct: 2".data =
      pyStrip ((pySplit nlM (pyStrip
        (beforeFirst correctM (afterFirst correctM "Correct: 1 Correct: 2".data)))).getD 0 []) :=
  c2_amended.2 "Correct: 1 Correct: 2".data (by decide)

/-- Counterexample to claim C4 as stated: with the model output
`"abc \nxyz"` (no `"Solution:"` marker), `generate_riddle_solution`
returns `"abc"`, not the raw generated text verbatim. -/
theorem c4_counterexample :
    generate_riddle_solution genNoMarker "r".data ≠ some "abc \nxyz".data ∧
    generate_riddle_solution genNoMarker "r".data = some "abc".data := by decide

/-- Claim C4 as amended: when the marker `"Solution:"` is absent, the
raw generated text is used as the fallback but still passes through the
final first-line truncation and strip, so the returned value is the
trimmed first line of the raw generated text. -/
theorem c4_fallback (generator : Gen) (riddle generated_text : PyStr)
    (hgen : generator (riddle_prompt riddle) = .ok generated_text)
    (habs : strIn solM generated_text = false) :
    generate_riddle_solution generator riddle =
      some (pyStrip ((pySplit nlM generated_text).getD 0 [])) := by
  simp [generate_riddle_solution, hgen, habs]

/-- Witness for the amended C4 on the two-line marker-free output
`"abc \nxyz"`. -/
theorem c4_witness :
    generate_riddle_solution genNoMarker "q".data =
      some (pyStrip ((pySplit nlM "abc \nxyz".data).getD 0 [])) :=
  c4_fallback genNoMarker "q".data "abc \nxyz".data rfl (by decide)

theorem riddles_go_error :
    ∀ (outs : List (Except Unit PyStr)) (acc : List (PyStr × PyStr)),
      Except.error () ∈ outs → riddles_go outs acc = none := by
  intro outs
  induction outs with
  | nil => intro acc h; cases h
  | cons o rest ih =>
    intro acc h
    cases o with
    | error e => rfl
    | ok t =>
      have hrest : Except.error () ∈ rest := by
        rcases List.mem_cons.mp h with h1 | h1
        · cases h1
        · exact h1
      simp [riddles_go, ih _ hrest]

theorem riddles_go_length :
    ∀ (outs : List (Except Unit PyStr)) (acc : List (PyStr × PyStr)) l,
      riddles_go outs acc = some l → l.length = outs.length + acc.length := by
  intro outs
  induction outs with
  | nil =>
    intro acc l h
    simp only [riddles_go, Option.some.injEq] at h
    subst h
    simp
  | cons o rest ih =>
    intro acc l h
    cases o with
    | error e => cases h
    | ok t =>
      have := ih (riddles_item t :: acc) l h
      simp only [List.length_cons] at this ⊢
      omega

theorem emoji_go_error :
    ∀ (iters : List EmojiIter) (acc : List (PyStr × PyStr)),
      (∃ it ∈ iters, it.gen (it.problem ++ " →".data) = .error ()) →
      emoji_go iters acc = none := by
  intro iters
  induction iters with
  | nil =>
    intro acc h
    obtain ⟨it, hmem, _⟩ := h
    cases hmem
  | cons it0 rest ih =>
    intro acc h
    obtain ⟨it, hmem, herr⟩ := h
    cases hg : it0.gen (it0.problem ++ " →".data) with
    | error e => simp [emoji_go, hg]
    | ok sol =>
      have hrest : ∃ it ∈ rest, it.gen (it.problem ++ " →".data) = .error () := by
        rcases List.mem_cons.mp hmem with h1 | h1
        · subst h1; rw [herr] at hg; cases hg
        · exact ⟨it, h1, herr⟩
      simp only [emoji_go, hg]
      split
      · exact ih _ hrest
      · exact ih _ hrest

theorem emoji_go_length :
    ∀ (iters : List EmojiIter) (acc : List (PyStr × PyStr)) l,
      emoji_go iters acc = some l → l.length ≤ iters.length + acc.length := by
  intro iters
  induction iters with
  | nil =>
    intro acc l h
    simp only [emoji_go, Option.some.injEq] at h
    subst h
    simp
  | cons it0 rest ih =>
    intro acc l h
    cases hg : it0.gen (it0.problem ++ " →".data) with
    | error e => simp [emoji_go, hg] at h
    | ok sol =>
      simp only [emoji_go, hg] at h
      by_cases hs : strIn arrowM sol = true
      · rw [if_pos hs] at h
        have := ih _ l h
        simp only [List.length_cons] at this ⊢
        omega
      · rw [if_neg hs] at h
        have := ih _ l h
        simp only [List.length_cons] at this ⊢
        omega

/-- Counterexample to claim C3 as stated: in `generate_riddles` and
`generate_emoji_riddles` a failure in the second iteration aborts the
whole batch and yields the `None` sentinel even though the first
iteration succeeded (so the returned collection is not of size ≤ N with
only the failed iteration dropped, and the sentinel is returned for a
non-empty would-be collection). -/
theorem c3_counterexample :
    generate_riddles [Except.ok "Riddle: hi\nSolution: 42".data, Except.error ()] = none ∧
    generate_emoji_riddles [⟨"p".data, genEcho7⟩, ⟨"q".data, genRaise⟩] = none := by decide

/-- Claim C3 as amended: only `generate_meme_examples` catches failures
per iteration: a failed iteration is dropped without affecting the
rest, the returned collection has size ≤ N, and the sentinel `None` is
returned exactly when the collection is empty.  In `generate_riddles`
and `generate_emoji_riddles` the `try` wraps the whole loop, so any
raising iteration makes the whole call return the sentinel; absent
failures the collections have size ≤ N (for `generate_riddles` exactly
N and never the sentinel). -/
theorem c3_amended :
    (∀ (pre post : List MemeIter) (it : MemeIter),
        it.gen (meme_prompt it.expr it.wrong) = .error () →
        generate_meme_examples (pre ++ it :: post) = generate_meme_examples (pre ++ post)) ∧
    (∀ (iters : List MemeIter) l, generate_meme_examples iters = some l →
        l.length ≤ iters.length ∧ l ≠ []) ∧
    (∀ (iters : List MemeIter), generate_meme_examples iters = none ↔
        iters.filterMap meme_example_step = []) ∧
    (∀ (outs : List (Except Unit PyStr)), Except.error () ∈ outs →
        generate_riddles outs = none) ∧
    (∀ (outs : List (Except Unit PyStr)) l, generate_riddles outs = some l →
        l.length = outs.length) ∧
    (∀ (iters : List EmojiIter) (it : EmojiIter), it ∈ iters →
        it.gen (it.problem ++ " →".data) = .error () →
        generate_emoji_riddles iters = none) ∧
    (∀ (iters : List EmojiIter) l, generate_emoji_riddles iters = some l →
        l.length ≤ iters.length ∧ l ≠ []) := by
  refine ⟨?_, ?_, ?_, ?_, ?_, ?_, ?_⟩
  · intro pre post it herr
    have hstep : meme_example_step it = none := by
      simp [meme_example_step, herr]
    simp [generate_meme_examples, List.filterMap_append, List.filterMap_cons, hstep]
  · intro iters l h
    simp only [generate_meme_examples] at h
    cases he : iters.filterMap meme_example_step with
    | nil => rw [he] at h; cases h
    | cons a rest =>
      rw [he] at h
      simp only [List.isEmpty_cons, Bool.false_eq_true, if_false, Option.some.injEq] at h
      subst h
      constructor
      · rw [← he]; exact List.length_filterMap_le _ _
      · simp
  · intro iters
    cases he : iters.filterMap meme_example_step with
    | nil => simp [generate_meme_examples, he]
    | cons a rest => simp [generate_meme_examples, he]
  · intro outs h
    exact riddles_go_error outs [] h
  · intro outs l h
    have := riddles_go_length outs [] l h
    simpa using this
  · intro iters it hmem herr
    simp [generate_emoji_riddles, emoji_go_error iters [] ⟨it, hmem, herr⟩]
  · intro iters l h
    simp only [generate_emoji_riddles] at h
    cases hgo : emoji_go iters [] with
    | none => rw [hgo] at h; cases h
    | some rs =>
      rw [hgo] at h
      cases rs with
      | nil => simp at h
      | cons a rest =>
        simp only [List.isEmpty_cons, Bool.false_eq_true, if_false, Option.some.injEq] at h
        subst h
        constructor
        · have := emoji_go_length iters [] _ hgo
          simpa using this
        · simp

/-- Witness for the amended C3: a single raising call makes
`generate_riddles` return the sentinel. -/
theorem c3_witness : generate_riddles [Except.error ()] = none :=
  c3_amended.2.2.2.1 [Except.error ()] (List.mem_singleton.mpr rfl)

/-- Claim C8: on any error during model loading the load returns the
`None` sentinel instead of raising; every button handler of `main`
checks for this sentinel before invoking generation (showing the
model-load error and doing nothing else), and a load or generation
failure surfaces as a user-facing notice, never as an uncaught
error. -/
theorem c8_sentinel :
    (∀ e, load_model (Except.error e) = none) ∧
    (∀ r, pyStrip r ≠ [] → solve_riddle_handler none r = .modelLoadError) ∧
    (∀ outs, generate_riddles_handler none outs = .modelLoadError) ∧
    (∀ iters, generate_examples_handler none iters = .modelLoadError) ∧
    (∀ m, pyStrip m ≠ [] → repair_meme_handler none m = .modelLoadError) ∧
    (∀ p, pyStrip p ≠ [] → solve_emoji_handler none p = .modelLoadError) ∧
    (∀ iters, emoji_riddles_handler none iters = .modelLoadError) ∧
    (∀ (g : Gen) r, pyStrip r ≠ [] → g (riddle_prompt r) = .error () →
        solve_riddle_handler (some g) r = .failNotice) ∧
    (∀ (g : Gen) m, pyStrip m ≠ [] →
        g (repair_meme_prompt (repair_meme_input m)) = .error () →
        repair_meme_handler (some g) m = .failNotice) ∧
    (∀ (g : Gen) p, pyStrip p ≠ [] → g (solve_emoji_input p) = .error () →
        solve_emoji_handler (some g) p = .failNotice) ∧
    (∀ (g : Gen) outs, Except.error () ∈ outs →
        generate_riddles_handler (some g) outs = .failNotice) := by
  refine ⟨?_, ?_, ?_, ?_, ?_, ?_, ?_, ?_, ?_, ?_, ?_⟩
  · intro e; rfl
  · intro r h; simp [solve_riddle_handler, h]
  · intro outs; rfl
  · intro iters; rfl
  · intro m h; simp [repair_meme_handler, h]
  · intro p h; simp [solve_emoji_handler, h]
  · intro iters; rfl
  · intro g r h hg; simp [solve_riddle_handler, h, generate_riddle_solution, hg]
  · intro g m h hg; simp [repair_meme_handler, h, repair_meme, hg]
  · intro g p h hg; simp [solve_emoji_handler, h, solve_emoji_math, hg]
  · intro g outs hmem
    simp [generate_riddles_handler, riddles_go_error outs [] hmem, generate_riddles]

/-- Witness for C8: with the riddle model unloaded, pressing "Solve
Riddle" on a non-blank riddle reports the model-load error. -/
theorem c8_witness : solve_riddle_handler none "what".data = UIOutcome.modelLoadError :=
  c8_sentinel.2.1 "what".data (by decide)

/-- Claim C10: under the Model Provider contract that the generated
text begins with the exact prompt, the marker-absent fallback branches
are unreachable: `solve_emoji_math` always finds `"→"` (its input after
the `" →"` append contains it) and takes the split branch, and in a
meme-example iteration the `"\nCorrect:"` presence check always
succeeds, so no item is dropped for a missing marker. -/
theorem c10_unreachable_fallback :
    (∀ (generator : Gen) (problem generated_text : PyStr),
        generator (solve_emoji_input problem) = .ok generated_text →
        isPre (solve_emoji_input problem) generated_text = true →
        strIn arrowM generated_text = true ∧
        solve_emoji_math generator problem =
          some (pyStrip ((pySplit arrowM generated_text).getD 1 []))) ∧
    (∀ (it : MemeIter) (generated_text : PyStr),
        it.gen (meme_prompt it.expr it.wrong) = .ok generated_text →
        isPre (meme_prompt it.expr it.wrong) generated_text = true →
        strIn nlCorrectM generated_text = true ∧
        meme_example_step it ≠ none) := by
  constructor
  · intro generator problem G hgen hpre
    have hprompt : strIn arrowM (solve_emoji_input problem) = true := by
      unfold solve_emoji_input
      cases h : strIn arrowM problem with
      | true => simp [h]
      | false =>
        simp only [h, Bool.false_eq_true, if_false]
        exact strIn_append_right " →".data problem (by decide)
    have hG : strIn arrowM G = true := strIn_of_isPre hpre hprompt
    refine ⟨hG, ?_⟩
    simp [solve_emoji_math, hgen, hG]
  · intro it G hgen hpre
    have hprompt : strIn nlCorrectM (meme_prompt it.expr it.wrong) = true := by
      unfold meme_prompt
      exact strIn_append_right "\nCorrect:".data _ (by decide)
    have hG : strIn nlCorrectM G = true := strIn_of_isPre hpre hprompt
    refine ⟨hG, ?_⟩
    simp [meme_example_step, hgen, hG]

/-- Witness for C10: the emoji model echoes the prompt built from
`"2 + 2 = 4"` and continues with `" 7"`. -/
theorem c10_witness :
    strIn arrowM (solve_emoji_input "2 + 2 = 4".data ++ " 7".data) = true ∧
    solve_emoji_math genEcho7 "2 + 2 = 4".data =
      some (pyStrip ((pySplit arrowM
        (solve_emoji_input "2 + 2 = 4".data ++ " 7".data)).getD 1 [])) :=
  c10_unreachable_fallback.1 genEcho7 "2 + 2 = 4".data
    (solve_emoji_input "2 + 2 = 4".data ++ " 7".data) rfl (by decide)
